import Mathlib

/-!
Verification of the fundit-backend goal-tracking and history-logging mechanism.

The definitions below are a shallow embedding of the repository's Python
source (Django models in `base/models.py`, the mutation service in
`base/services.py`, and the request handlers in `base/views.py`).
Decimal amounts (`DecimalField`) are modelled as rationals (`Rat`):
Python `Decimal` addition and subtraction are exact, so the embedding is
faithful for the arithmetic the code performs.  Persistent tables are
modelled as lists of records held in a `Store`; a Django `save()` or
`create()` is a pure update of that store.
-/

/-- A calendar date, mirroring Python `datetime.date` (year, month, day). -/
structure Date where
  year : Nat
  month : Nat
  day : Nat
deriving DecidableEq, Repr

/-- Lexicographic comparison on dates: `dateLe a b` means `a` is on or before
`b`, exactly Python's `datetime.date` ordering. -/
def dateLe (a b : Date) : Bool :=
  decide (a.year < b.year ∨ (a.year = b.year ∧
    (a.month < b.month ∨ (a.month = b.month ∧ a.day ≤ b.day))))

/-- Strict version of `dateLe`. -/
def dateLt (a b : Date) : Bool :=
  decide (a.year < b.year ∨ (a.year = b.year ∧
    (a.month < b.month ∨ (a.month = b.month ∧ a.day < b.day))))

/-- Gregorian leap-year rule, as in Python's `datetime`. -/
def isLeapYear (y : Nat) : Bool :=
  y % 4 == 0 && (y % 100 != 0 || y % 400 == 0)

/-- Number of days in a month, as validated by Python `datetime.date`. -/
def daysInMonth (y m : Nat) : Nat :=
  if m = 2 then (if isLeapYear y then 29 else 28)
  else if m = 4 ∨ m = 6 ∨ m = 9 ∨ m = 11 then 30
  else 31

/-- The three goal-bearing tables of `base/models.py`: `General_Saving`,
`Savings_Goal` and `Repayment_Goal`.  This is the `content_type` component of
a `History` row's polymorphic target reference. -/
inductive GoalKind
  | generalSaving
  | savingsGoal
  | repaymentGoal
deriving DecidableEq, Repr

/-- Row of the `General_Saving` model (models.py lines 239-254).  The running
balance field of this variant is `amount`. -/
structure GeneralSaving where
  id : Nat
  userId : Nat
  savings_name : String
  amount : Rat
  date : Date
deriving DecidableEq, Repr

/-- Row of the `Savings_Goal` model (models.py lines 257-300).  The running
balance field is `current_amount`; `deadline` is nullable
(`blank=True, null=True`) and `current_amount` defaults to 0. -/
structure SavingsGoal where
  id : Nat
  userId : Nat
  category : String
  goal_name : String
  goal_amount : Rat
  current_amount : Rat
  deadline_ongoing : String
  deadline : Option Date
deriving DecidableEq, Repr

/-- Row of the `Repayment_Goal` model (models.py lines 303-344); identical
shape to `Savings_Goal` apart from its category choices. -/
structure RepaymentGoal where
  id : Nat
  userId : Nat
  category : String
  goal_name : String
  goal_amount : Rat
  current_amount : Rat
  deadline_ongoing : String
  deadline : Option Date
deriving DecidableEq, Repr

/-- Row of the `History` model (models.py lines 347-374): optional owning
user, effective date, action string, amount, and the polymorphic
`(content_type, object_id)` target reference. -/
structure History where
  userId : Option Nat
  date : Date
  action : String
  amount : Rat
  content_type : GoalKind
  object_id : Nat
deriving DecidableEq, Repr

/-- The persistent store: one list per goal-bearing table plus the `History`
table.  Lists are kept in insertion order; query-time ordering
(`order_by`, model `Meta.ordering`) is applied by the query functions. -/
structure Store where
  general_savings : List GeneralSaving
  savings_goals : List SavingsGoal
  repayment_goals : List RepaymentGoal
  histories : List History
deriving DecidableEq, Repr

/-- Value of the mutated running field of the goal row with the given id, if
present: `amount` for `General_Saving`, `current_amount` for the two goal
models — the per-variant `goal_field` of views.py. -/
def findGoalAmount (st : Store) (kind : GoalKind) (goalId : Nat) : Option Rat :=
  match kind with
  | .generalSaving =>
      (st.general_savings.find? (fun g => g.id == goalId)).map (·.amount)
  | .savingsGoal =>
      (st.savings_goals.find? (fun g => g.id == goalId)).map (·.current_amount)
  | .repaymentGoal =>
      (st.repayment_goals.find? (fun g => g.id == goalId)).map (·.current_amount)

/-- Same lookup restricted to rows owned by `userId`: this is DRF
`get_object()` running over the user-filtered `get_queryset()` of
views.py (lines 596-627 and 691-692). -/
def findUserGoalAmount (st : Store) (kind : GoalKind) (userId goalId : Nat) : Option Rat :=
  match kind with
  | .generalSaving =>
      (st.general_savings.find? (fun g => g.userId == userId && g.id == goalId)).map (·.amount)
  | .savingsGoal =>
      (st.savings_goals.find? (fun g => g.userId == userId && g.id == goalId)).map (·.current_amount)
  | .repaymentGoal =>
      (st.repayment_goals.find? (fun g => g.userId == userId && g.id == goalId)).map (·.current_amount)

/-- Write `v` into the running field of the goal row with the given id:
`setattr(goal_instance, field_name, v)` followed by `goal_instance.save()`. -/
def setGoalAmount (st : Store) (kind : GoalKind) (goalId : Nat) (v : Rat) : Store :=
  match kind with
  | .generalSaving =>
      { st with general_savings :=
          st.general_savings.map (fun g => if g.id == goalId then { g with amount := v } else g) }
  | .savingsGoal =>
      { st with savings_goals :=
          st.savings_goals.map (fun g => if g.id == goalId then { g with current_amount := v } else g) }
  | .repaymentGoal =>
      { st with repayment_goals :=
          st.repayment_goals.map (fun g => if g.id == goalId then { g with current_amount := v } else g) }

/-- The `History` row that `History.objects.create(...)` inserts from
`update_goal_with_history` (services.py lines 24-30): no user is passed, and
`content_type`/`object_id` point at the mutated goal instance. -/
def mutationHistoryRecord (kind : GoalKind) (goalId : Nat)
    (action_type : String) (amount : Rat) (hdate : Date) : History :=
  { userId := none, date := hdate, action := action_type, amount := amount,
    content_type := kind, object_id := goalId }

/-- Embeds `update_goal_with_history` (services.py lines 14-30).  The caller
has already loaded the goal instance; `currentVal` is the loaded value of its
running field.  On `"add"`/`"remove"` the field is set and saved and one
`History` row is inserted; any other `action_type` raises
`ValueError("Invalid action type")` before anything is written. -/
def update_goal_with_history (st : Store) (kind : GoalKind) (goalId : Nat)
    (currentVal : Rat) (action_type : String) (amount : Rat) (hdate : Date) :
    Except String Store :=
  if action_type = "add" then
    let st1 := setGoalAmount st kind goalId (currentVal + amount)
    .ok { st1 with histories :=
            st1.histories ++ [mutationHistoryRecord kind goalId action_type amount hdate] }
  else if action_type = "remove" then
    let st1 := setGoalAmount st kind goalId (currentVal - amount)
    .ok { st1 with histories :=
            st1.histories ++ [mutationHistoryRecord kind goalId action_type amount hdate] }
  else
    .error "Invalid action type"

/-- Execution model of `update_goal_with_history` that makes the two
separate commits visible: `goal_instance.save()` (services.py line 22)
commits before `History.objects.create` (lines 24-30) runs, and no
transaction wraps the two writes.  `historyInsertFails` chooses an execution
in which the history insert cannot be completed; the returned store is the
observably committed state and the flag reports success. -/
def update_goal_with_history_run (st : Store) (kind : GoalKind) (goalId : Nat)
    (currentVal : Rat) (action_type : String) (amount : Rat) (hdate : Date)
    (historyInsertFails : Bool) : Store × Bool :=
  if action_type = "add" ∨ action_type = "remove" then
    let newVal := if action_type = "add" then currentVal + amount else currentVal - amount
    let st1 := setGoalAmount st kind goalId newVal
    if historyInsertFails then (st1, false)
    else ({ st1 with histories :=
              st1.histories ++ [mutationHistoryRecord kind goalId action_type amount hdate] },
          true)
  else (st, false)

/-- The `History` rows inserted by `create_dummy_history_entry`
(services.py lines 33-76) for one user, in the source's insertion order:
two rows per `General_Saving`, then two per `Savings_Goal`, then two per
`Repayment_Goal`, with the fixed amounts and 2025 dates of the source. -/
def dummyHistoryRecords (st : Store) (userId : Nat) : List History :=
  ((st.general_savings.filter (fun g => g.userId == userId)).flatMap (fun g =>
    [ { userId := some userId, date := ⟨2025, 3, 20⟩, action := "add",
        amount := 100, content_type := .generalSaving, object_id := g.id },
      { userId := some userId, date := ⟨2025, 4, 20⟩, action := "remove",
        amount := 30, content_type := .generalSaving, object_id := g.id } ]))
  ++ ((st.savings_goals.filter (fun g => g.userId == userId)).flatMap (fun g =>
    [ { userId := some userId, date := ⟨2025, 3, 20⟩, action := "add",
        amount := 100, content_type := .savingsGoal, object_id := g.id },
      { userId := some userId, date := ⟨2025, 4, 20⟩, action := "remove",
        amount := 50, content_type := .savingsGoal, object_id := g.id } ]))
  ++ ((st.repayment_goals.filter (fun g => g.userId == userId)).flatMap (fun g =>
    [ { userId := some userId, date := ⟨2025, 2, 20⟩, action := "add",
        amount := 200, content_type := .repaymentGoal, object_id := g.id },
      { userId := some userId, date := ⟨2025, 3, 20⟩, action := "remove",
        amount := 100, content_type := .repaymentGoal, object_id := g.id } ]))

/-- Embeds `create_dummy_history_entry` (services.py lines 33-76), the guest
demo-data seeder called from `populate_dummy_data`: it inserts `History` rows
directly with `History.objects.create`, without touching any balance. -/
def create_dummy_history_entry (st : Store) (userId : Nat) : Store :=
  { st with histories := st.histories ++ dummyHistoryRecords st userId }

/-- The code paths of this repository that write to the store's tables
relevant to the history invariant: a balance mutation through
`update_goal_with_history`, or the guest-seeding path
`create_dummy_history_entry`. -/
inductive StoreOp
  | mutate (kind : GoalKind) (goalId : Nat) (action_type : String) (amount : Rat) (hdate : Date)
  | seedDummyHistory (userId : Nat)
deriving DecidableEq, Repr

/-- One step of the store under a code-path operation.  A mutation first
loads the goal (`get_object`) and leaves the store unchanged when the goal is
missing or the action is invalid (the exception aborts the request before
any write). -/
def stepStore (st : Store) (op : StoreOp) : Store :=
  match op with
  | .mutate kind goalId act amt d =>
      match findGoalAmount st kind goalId with
      | none => st
      | some v =>
          match update_goal_with_history st kind goalId v act amt d with
          | .ok st1 => st1
          | .error _ => st
  | .seedDummyHistory u => create_dummy_history_entry st u

/-- Numeric value of a list of ASCII digits. -/
def digitsVal (cs : List Char) : Nat :=
  cs.foldl (fun n c => 10 * n + (c.toNat - 48)) 0

/-- True when every character is an ASCII digit. -/
def allDigits (cs : List Char) : Bool := cs.all (·.isDigit)

/-- Splits a character list on a separator character, keeping empty groups,
like Python `str.split` with an explicit separator. -/
def splitOnChar (sep : Char) (cs : List Char) : List (List Char) :=
  match cs with
  | [] => [[]]
  | c :: rest =>
    let r := splitOnChar sep rest
    if c = sep then [] :: r
    else
      match r with
      | [] => [[c]]
      | g :: gs => (c :: g) :: gs

/-- Models the `Decimal(amount_str)` conversion in the `update_amount`
handlers (views.py lines 643-646 and 708-711) on plain fixed-point syntax:
an optional sign followed by digits with an optional fractional part.  This
is the fragment of Python `Decimal`'s accepted syntax the endpoints are
exercised with; strings outside it (and every string `Decimal` rejects, such
as `"abc"` or `""`) yield `none`, the `InvalidOperation` branch. -/
def parseDecimal (s : String) : Option Rat :=
  let signBody : Int × List Char :=
    match s.toList with
    | '+' :: r => (1, r)
    | '-' :: r => (-1, r)
    | cs => (1, cs)
  let sign := signBody.1
  let body := signBody.2
  let intPart := body.takeWhile (·.isDigit)
  let rest := body.dropWhile (·.isDigit)
  match rest with
  | [] =>
      if intPart.isEmpty then none
      else some ((sign * (digitsVal intPart : Int) : Int) : Rat)
  | '.' :: fracPart =>
      if allDigits fracPart && !(intPart.isEmpty && fracPart.isEmpty) then
        some (((sign * ((digitsVal intPart * 10 ^ fracPart.length + digitsVal fracPart : Nat) : Int) : Int) : Rat)
              / ((10 ^ fracPart.length : Nat) : Rat))
      else none
  | _ => none

/-- Outcome of `django.utils.dateparse.parse_date`: a date, `None` when the
string does not match the date format, or a raised `ValueError` when the
string is well-formed but denotes no real calendar date (Django documents
exactly these three outcomes). -/
inductive DateParseResult
  | parsed (d : Date)
  | noMatch
  | valueError (msg : String)
deriving DecidableEq, Repr

/-- Python `datetime.date(y, m, d)`: range-checks year, then month, then day,
raising `ValueError` as CPython does. -/
def mkPythonDate (y m d : Nat) : DateParseResult :=
  if y < 1 then .valueError ("year " ++ toString y ++ " is out of range")
  else if m < 1 ∨ 12 < m then .valueError "month must be in 1..12"
  else if d < 1 ∨ daysInMonth y m < d then .valueError "day is out of range for month"
  else .parsed ⟨y, m, d⟩

/-- Embeds `django.utils.dateparse.parse_date` as called by the
`update_amount` handlers: the hyphenated pattern
`\d{4}-\d{1,2}-\d{1,2}` (Django's `date_re`) is converted with
`datetime.date`, which raises `ValueError` for out-of-range components; any
other string yields `None`.  Non-hyphenated ISO forms accepted by newer
`date.fromisoformat` are outside the modelled fragment; every date string the
endpoints are specified over is hyphenated. -/
def parse_date (s : String) : DateParseResult :=
  match splitOnChar '-' s.toList with
  | [ys, ms, ds] =>
      if ys.length == 4 && allDigits ys
          && decide (1 ≤ ms.length) && decide (ms.length ≤ 2) && allDigits ms
          && decide (1 ≤ ds.length) && decide (ds.length ≤ 2) && allDigits ds then
        mkPythonDate (digitsVal ys) (digitsVal ms) (digitsVal ds)
      else .noMatch
  | _ => .noMatch

/-- The month-shorthand normalization of the `update_amount` handlers
(views.py lines 648-650 and 713-715): a non-empty date string of length 7
gets `"-15"` appended before parsing. -/
def normalize_date_str (date_str : String) : String :=
  if date_str ≠ "" ∧ date_str.length = 7 then date_str ++ "-15" else date_str

/-- The JSON responses the `update_amount` handlers produce: 200 with a
`status` message, 400 with an `error` message, or 500 with an `error`
message from the caught exception. -/
inductive HttpResponse
  | ok200 (statusMsg : String)
  | badRequest400 (errorMsg : String)
  | serverError500 (errorMsg : String)
deriving DecidableEq, Repr

/-- True on the 400 branch. -/
def HttpResponse.isBadRequest : HttpResponse → Bool
  | .badRequest400 _ => true
  | _ => false

/-- True on the 500 branch. -/
def HttpResponse.isServerError : HttpResponse → Bool
  | .serverError500 _ => true
  | _ => false

/-- True on the 200 branch. -/
def HttpResponse.isOk : HttpResponse → Bool
  | .ok200 _ => true
  | _ => false

/-- The per-viewset `goal_field` attribute: `'amount'` on
`UpdateGeneralSavingsEntriesViewSet` (views.py line 593), `'current_amount'`
on `BaseGoalViewSet` and its two subclasses (lines 688, 734, 741). -/
def goalFieldName : GoalKind → String
  | .generalSaving => "amount"
  | .savingsGoal => "current_amount"
  | .repaymentGoal => "current_amount"

/-- Embeds the `update_amount` action shared by
`UpdateGeneralSavingsEntriesViewSet` (views.py lines 634-662) and
`BaseGoalViewSet` (lines 699-727); the two bodies are line-for-line
identical up to `goal_field`.  `get_object()` runs over the user-filtered
queryset; a missed lookup raises `Http404`, which the surrounding
`except Exception` turns into a 500.  Then: amount parse failure gives 400
`'Invalid amount'`; a date string that does not match the format gives 400
`'Invalid date format. Use YYYY-MM-DD.'`; a well-formed invalid date makes
`parse_date` raise `ValueError`, caught by the catch-all as a 500; and
`update_goal_with_history`'s `ValueError("Invalid action type")` is likewise
caught by the catch-all as a 500.  The returned store is the committed
state. -/
def update_amount_view (st : Store) (kind : GoalKind) (requestUserId : Nat)
    (pk : Nat) (action_type : String) (amount_str : String) (date_str : String) :
    Store × HttpResponse :=
  match findUserGoalAmount st kind requestUserId pk with
  | none => (st, .serverError500 "No object matches the given query.")
  | some currentVal =>
      match parseDecimal amount_str with
      | none => (st, .badRequest400 "Invalid amount")
      | some amount =>
          match parse_date (normalize_date_str date_str) with
          | .noMatch => (st, .badRequest400 "Invalid date format. Use YYYY-MM-DD.")
          | .valueError msg => (st, .serverError500 msg)
          | .parsed d =>
              match update_goal_with_history st kind pk currentVal action_type amount d with
              | .error msg => (st, .serverError500 msg)
              | .ok st1 => (st1, .ok200 (goalFieldName kind ++ " updated"))

/-- Query-time descending-date ordering: `order_by('-date')` in the history
list views, which coincides with the `History` model's default
`Meta.ordering = ['-date']`. -/
def orderByDateDesc (l : List History) : List History :=
  List.insertionSort (fun a b => dateLe b.date a.date = true) l

/-- The queryset shared by the three history list views (views.py lines
745-795): `History` rows filtered to one `(content_type, object_id)` pair,
most recent date first.  No user filter is applied. -/
def history_list_queryset (st : Store) (kind : GoalKind) (objectId : Nat) : List History :=
  orderByDateDesc
    (st.histories.filter (fun h => h.content_type == kind && h.object_id == objectId))

/-- `GeneralSavingHistoryListView.get_queryset` (views.py lines 745-759).
The view requires an authenticated user (`IsAuthenticated`), passed here as
`requestUserId`, but its queryset never mentions `request.user`. -/
def general_saving_history_view (st : Store) (requestUserId : Nat) (pk : Nat) : List History :=
  history_list_queryset st .generalSaving pk

/-- `SavingsGoalHistoryListView.get_queryset` (views.py lines 762-777). -/
def savings_goal_history_view (st : Store) (requestUserId : Nat) (pk : Nat) : List History :=
  history_list_queryset st .savingsGoal pk

/-- `RepaymentGoalHistoryListView.get_queryset` (views.py lines 780-795). -/
def repayment_goal_history_view (st : Store) (requestUserId : Nat) (pk : Nat) : List History :=
  history_list_queryset st .repaymentGoal pk

/-- Shared shape of the `Income` and `Expense` rows (models.py lines 107-186):
the two models declare identical fields apart from their category choice
lists, and their month-filtered list views are line-for-line identical. -/
structure LedgerEntry where
  userId : Nat
  amount : Rat
  date : Date
  category : String
  custom_category : String
  recurring_monthly : String
deriving DecidableEq, Repr

/-- `start_date` of the month filter: `parse_date(f"{year}-{month}-01")`. -/
def monthStartDate (y m : Nat) : Date := ⟨y, m, 1⟩

/-- `end_date` of the month filter (views.py lines 458-461): the first day of
the following month, rolling December over to January of the next year. -/
def monthEndDate (y m : Nat) : Date :=
  if m = 12 then ⟨y + 1, 1, 1⟩ else ⟨y, m + 1, 1⟩

/-- Embeds the month branch of `UpdateIncomeEntriesViewSet.get_queryset`
(views.py lines 441-473) and the identical
`UpdateExpenseEntriesViewSet.get_queryset` (lines 494-526), after the
`"YYYY-MM"` query parameter has been split and parsed into `y` and `m`:
the user's entries are filtered by
`Q(date__gte=start_date, date__lt=end_date) |
Q(recurring_monthly='yes', date__lte=end_date)` and ordered by date. -/
def ledger_month_queryset (entries : List LedgerEntry) (userId : Nat) (y m : Nat) :
    List LedgerEntry :=
  List.insertionSort (fun a b => dateLe a.date b.date = true)
    ((entries.filter (fun e => e.userId == userId)).filter
      (fun e =>
        (dateLe (monthStartDate y m) e.date && dateLt e.date (monthEndDate y m))
        || (e.recurring_monthly == "yes" && dateLe e.date (monthEndDate y m))))

/-- Row of the `Budget` model (models.py lines 189-236). -/
structure Budget where
  userId : Nat
  category : String
  custom_category : String
  amount : Rat
  recurring_monthly : String
  date : Option Date
deriving DecidableEq, Repr

/-- A Django `ValidationError` carrying a field name and a message. -/
structure ValidationErr where
  field : String
  message : String
deriving DecidableEq, Repr

/-- Embeds `Budget.clean` (models.py lines 225-230): `category == 'custom'`
with an empty `custom_category` raises first; otherwise
`recurring_monthly == 'no'` with no `date` raises. -/
def budgetClean (b : Budget) : Except ValidationErr Unit :=
  if b.category == "custom" && b.custom_category == "" then
    .error ⟨"custom_category", "Custom category is required when Custom is selected."⟩
  else if b.recurring_monthly == "no" && b.date.isNone then
    .error ⟨"date", "Date is required if the budget is not recurring monthly."⟩
  else .ok ()

/-- The `CATEGORY_CHOICES` keys of `Savings_Goal` (models.py lines 268-284). -/
def savingsGoalCategories : List String :=
  ["emergency fund", "travel / holiday", "new home", "home renovation",
   "car / vehicle", "education / courses", "wedding / event", "tech / gadgets",
   "christmas / gifts", "special event", "gifts", "rainy day fund",
   "investment fund", "luxury purchase", "other"]

/-- The `CATEGORY_CHOICES` keys of `Repayment_Goal` (models.py lines 314-328). -/
def repaymentGoalCategories : List String :=
  ["credit card", "loan", "student loan", "mortgage", "car finance",
   "buy now pay later", "medical bills", "overdraft", "utility arrears",
   "tax debt", "family or friend loan", "business loan", "other"]

/-- Client-supplied fields for creating or updating a `Savings_Goal` or
`Repayment_Goal` (the two models declare the same fields; `user` is read-only
on the serializers and supplied by the view). -/
structure GoalInput where
  category : String
  goal_name : String
  goal_amount : Rat
  current_amount : Option Rat
  deadline_ongoing : String
  deadline : Option Date
deriving DecidableEq, Repr

/-- Embeds the write-time validation run for `Savings_Goal` creates and
updates: `SavingsGoalSerializer` is a plain `ModelSerializer`
(serializers.py lines 120-124) with no `validate` hook, so validation is
exactly the model's field constraints (models.py lines 257-297): `category`
must be one of the declared choices, `goal_name` must be non-blank,
`deadline_ongoing` must be `'yes'` or `'no'`, while `current_amount` and
`deadline` are optional (`blank=True, null=True`).  `Savings_Goal` defines
no `clean()` override and `ModelSerializer` never calls `Model.clean()`,
so no rule ties `deadline_ongoing` to `deadline`. -/
def savingsGoalValidate (inp : GoalInput) : Except ValidationErr Unit :=
  if !(savingsGoalCategories.contains inp.category) then
    .error ⟨"category", "not a valid choice."⟩
  else if inp.goal_name == "" then
    .error ⟨"goal_name", "This field may not be blank."⟩
  else if !(inp.deadline_ongoing == "yes" || inp.deadline_ongoing == "no") then
    .error ⟨"deadline_ongoing", "not a valid choice."⟩
  else .ok ()

/-- Embeds the write-time validation for `Repayment_Goal` creates and
updates, identical to `savingsGoalValidate` up to the category choice list
(models.py lines 303-341, serializers.py lines 127-131); `Repayment_Goal`
likewise defines no `clean()` override. -/
def repaymentGoalValidate (inp : GoalInput) : Except ValidationErr Unit :=
  if !(repaymentGoalCategories.contains inp.category) then
    .error ⟨"category", "not a valid choice."⟩
  else if inp.goal_name == "" then
    .error ⟨"goal_name", "This field may not be blank."⟩
  else if !(inp.deadline_ongoing == "yes" || inp.deadline_ongoing == "no") then
    .error ⟨"deadline_ongoing", "not a valid choice."⟩
  else .ok ()

/-! Concrete fixtures used to instantiate the theorems.  They mirror the
demo rows seeded by `populate_dummy_data` (services.py lines 79-118). -/

/-- A store holding one `Savings_Goal` row: id 1, owned by user 7, target
2500, current amount 800 (the end-to-end example of the spec). -/
def sgStore : Store :=
  { general_savings := [],
    savings_goals := [{ id := 1, userId := 7, category := "travel / holiday",
                        goal_name := "Italy Trip", goal_amount := 2500,
                        current_amount := 800, deadline_ongoing := "no",
                        deadline := some ⟨2025, 1, 15⟩ }],
    repayment_goals := [],
    histories := [] }

/-- A store holding one `General_Saving` row: id 1, owned by user 7,
amount 100. -/
def gsStore : Store :=
  { general_savings := [{ id := 1, userId := 7, savings_name := "Emergency Fund",
                          amount := 100, date := ⟨2025, 3, 15⟩ }],
    savings_goals := [],
    repayment_goals := [],
    histories := [] }

/-- History row dated 2025-01-10 targeting `General_Saving` 1. -/
def histJan : History :=
  { userId := none, date := ⟨2025, 1, 10⟩, action := "add", amount := 25,
    content_type := .generalSaving, object_id := 1 }

/-- History row dated 2025-03-05 targeting `General_Saving` 1. -/
def histMar : History :=
  { userId := none, date := ⟨2025, 3, 5⟩, action := "add", amount := 40,
    content_type := .generalSaving, object_id := 1 }

/-- History row dated 2025-02-20 targeting `General_Saving` 1. -/
def histFeb : History :=
  { userId := none, date := ⟨2025, 2, 20⟩, action := "remove", amount := 10,
    content_type := .generalSaving, object_id := 1 }

/-- History row targeting a different entity (`Savings_Goal` 2), owned by
user 7. -/
def histOther : History :=
  { userId := some 7, date := ⟨2025, 5, 1⟩, action := "add", amount := 60,
    content_type := .savingsGoal, object_id := 2 }

/-- A store whose `History` table holds the three ordering-example rows
(inserted 01-10, then 03-05, then 02-20) plus one row for another entity. -/
def histStore : Store :=
  { general_savings := [{ id := 1, userId := 7, savings_name := "Emergency Fund",
                          amount := 100, date := ⟨2025, 3, 15⟩ }],
    savings_goals := [],
    repayment_goals := [],
    histories := [histJan, histMar, histFeb, histOther] }

/-- Recurring income entry of user 7 dated 2025-01-15. -/
def incomeRecurring : LedgerEntry :=
  { userId := 7, amount := 3200, date := ⟨2025, 1, 15⟩, category := "salary",
    custom_category := "", recurring_monthly := "yes" }

/-- Non-recurring income entry of user 7 dated 2025-03-10. -/
def incomeMarch : LedgerEntry :=
  { userId := 7, amount := 80, date := ⟨2025, 3, 10⟩, category := "investments",
    custom_category := "", recurring_monthly := "no" }

/-- Non-recurring income entry of user 7 dated 2025-06-10. -/
def incomeJune : LedgerEntry :=
  { userId := 7, amount := 50, date := ⟨2025, 6, 10⟩, category := "other",
    custom_category := "", recurring_monthly := "no" }

/-- Income entry of a different user (user 8). -/
def incomeOtherUser : LedgerEntry :=
  { userId := 8, amount := 900, date := ⟨2025, 3, 12⟩, category := "salary",
    custom_category := "", recurring_monthly := "no" }

/-- The income table used to instantiate the month-filter theorem. -/
def incomeEntries : List LedgerEntry :=
  [incomeRecurring, incomeMarch, incomeJune, incomeOtherUser]

/-! Helper lemmas about the store operations. -/

/-- Updating a list element selected by a predicate, then finding by the same
predicate and projecting, yields the written value whenever a match existed:
`find?` after the `map` that models a row `UPDATE`. -/
theorem find?_map_if {α β : Type} (l : List α) (p : α → Bool) (upd : α → α)
    (proj : α → β) (w : β)
    (hp : ∀ a, p (upd a) = p a) (hw : ∀ a, proj (upd a) = w) :
    ((l.map (fun a => if p a then upd a else a)).find? p).map proj
      = (l.find? p).map (fun _ => w) := by
  induction l with
  | nil => rfl
  | cons a t ih =>
      rw [List.map_cons]
      by_cases h : p a = true
      · rw [if_pos h, List.find?_cons_of_pos _ (by rw [hp a]; exact h),
            List.find?_cons_of_pos _ h]
        simp [hw a]
      · rw [if_neg h, List.find?_cons_of_neg _ h, List.find?_cons_of_neg _ h, ih]

/-- `setGoalAmount` does not touch the `History` table. -/
theorem histories_setGoalAmount (st : Store) (kind : GoalKind) (i : Nat) (v : Rat) :
    (setGoalAmount st kind i v).histories = st.histories := by
  cases kind <;> rfl

/-- Replacing the `History` table does not affect goal lookups. -/
theorem findGoalAmount_set_histories (st : Store) (kind : GoalKind) (i : Nat)
    (hs : List History) :
    findGoalAmount { st with histories := hs } kind i = findGoalAmount st kind i := by
  cases kind <;> rfl

/-- After `setGoalAmount`, looking the same goal up returns the written
value whenever the goal existed before. -/
theorem findGoalAmount_setGoalAmount (st : Store) (kind : GoalKind) (i : Nat) (v : Rat) :
    findGoalAmount (setGoalAmount st kind i v) kind i
      = (findGoalAmount st kind i).map (fun _ => v) := by
  cases kind <;>
    simp only [findGoalAmount, setGoalAmount, Option.map_map] <;>
    exact find?_map_if _ _ _ _ _ (fun a => rfl) (fun a => rfl)

/-! Claim C1. -/

/-- C1: for every goal entity (General_Saving, Savings_Goal or
Repayment_Goal), every positive decimal amount and every date, the mutation
with actionType "add" succeeds, increases the entity's running field by
exactly that amount, and appends exactly one new HistoryRecord with
action "add", that amount and that date whose (content_type, object_id)
reference is that entity; no other HistoryRecord is created. -/
theorem C1_add_increments_balance_and_appends_one_history
    (st : Store) (kind : GoalKind) (goalId : Nat) (v amount : Rat) (hdate : Date)
    (hfind : findGoalAmount st kind goalId = some v) (hpos : 0 < amount) :
    ∃ st1, update_goal_with_history st kind goalId v "add" amount hdate = .ok st1 ∧
      findGoalAmount st1 kind goalId = some (v + amount) ∧
      st1.histories = st.histories
        ++ [mutationHistoryRecord kind goalId "add" amount hdate] := by
  refine ⟨_, rfl, ?_, ?_⟩
  · rw [findGoalAmount_set_histories, findGoalAmount_setGoalAmount, hfind]
    rfl
  · show (setGoalAmount st kind goalId (v + amount)).histories ++ _ = _
    rw [histories_setGoalAmount]

/-- Witness for C1 at the spec's end-to-end example: adding 200 on
2025-04-01 to the goal with current amount 800 yields 1000 and logs exactly
one matching history row. -/
theorem C1_add_increments_balance_and_appends_one_history_witness :
    ∃ st1, update_goal_with_history sgStore .savingsGoal 1 800 "add" 200 ⟨2025, 4, 1⟩ = .ok st1 ∧
      findGoalAmount st1 .savingsGoal 1 = some (800 + 200) ∧
      st1.histories = sgStore.histories
        ++ [mutationHistoryRecord .savingsGoal 1 "add" 200 ⟨2025, 4, 1⟩] :=
  C1_add_increments_balance_and_appends_one_history sgStore .savingsGoal 1 800 200
    ⟨2025, 4, 1⟩ rfl (by norm_num)

/-! Claim C6. -/

/-- C6: for every goal entity, positive amount and date, the mutation with
actionType "remove" succeeds and decreases the running field by exactly that
amount — symmetric to "add" — and the new value is exactly the difference
with no clamping, so it may go negative or exceed the target amount. -/
theorem C6_remove_decrements_balance_without_clamping
    (st : Store) (kind : GoalKind) (goalId : Nat) (v amount : Rat) (hdate : Date)
    (hfind : findGoalAmount st kind goalId = some v) (hpos : 0 < amount) :
    ∃ st1, update_goal_with_history st kind goalId v "remove" amount hdate = .ok st1 ∧
      findGoalAmount st1 kind goalId = some (v - amount) ∧
      st1.histories = st.histories
        ++ [mutationHistoryRecord kind goalId "remove" amount hdate] := by
  refine ⟨_, rfl, ?_, ?_⟩
  · rw [findGoalAmount_set_histories, findGoalAmount_setGoalAmount, hfind]
    rfl
  · show (setGoalAmount st kind goalId (v - amount)).histories ++ _ = _
    rw [histories_setGoalAmount]

/-- Witness for C6: removing 300 from the general saving holding 100 stores
the negative balance -200 — no clamping is applied. -/
theorem C6_remove_decrements_balance_without_clamping_witness :
    ∃ st1, update_goal_with_history gsStore .generalSaving 1 100 "remove" 300 ⟨2025, 5, 1⟩ = .ok st1 ∧
      findGoalAmount st1 .generalSaving 1 = some (-200) ∧
      st1.histories = gsStore.histories
        ++ [mutationHistoryRecord .generalSaving 1 "remove" 300 ⟨2025, 5, 1⟩] := by
  obtain ⟨st1, h1, h2, h3⟩ :=
    C6_remove_decrements_balance_without_clamping gsStore .generalSaving 1 100 300
      ⟨2025, 5, 1⟩ rfl (by norm_num)
  exact ⟨st1, h1, by rw [h2]; norm_num, h3⟩

/-! Claim C2. -/

/-- C2 (code defect): the two writes are not a single unit of work.  In the
execution in which the History insert cannot be completed (flag `true`), the
call fails, yet the goal's committed running amount has changed from 800 to
1000: `goal_instance.save()` (services.py line 22) commits before
`History.objects.create` (lines 24-30) and no transaction wraps the pair,
contradicting the claimed all-or-nothing guarantee. -/
theorem C2_failed_history_insert_still_commits_balance :
    (update_goal_with_history_run sgStore .savingsGoal 1 800 "add" 200 ⟨2025, 4, 1⟩ true).2
        = false ∧
    findGoalAmount
        (update_goal_with_history_run sgStore .savingsGoal 1 800 "add" 200 ⟨2025, 4, 1⟩ true).1
        .savingsGoal 1 = some 1000 ∧
    findGoalAmount sgStore .savingsGoal 1 = some 800 := by
  refine ⟨rfl, ?_, rfl⟩
  show findGoalAmount (setGoalAmount sgStore .savingsGoal 1 (800 + 200)) .savingsGoal 1
      = some 1000
  rw [findGoalAmount_setGoalAmount,
      show findGoalAmount sgStore .savingsGoal 1 = some 800 from rfl]
  norm_num

/-! Claim C3. -/

/-- C3 counterexample: with a parseable amount and date and an existing
goal, the actionType "multiply" is answered with a 500 response carrying the
`ValueError` text, not with a 400 InvalidInput response as the claim
states: the `ValueError("Invalid action type")` raised in services.py line
20 is swallowed by the handler's catch-all (views.py lines 725-727). -/
theorem C3_counterexample_invalid_action_returns_500 :
    (update_amount_view sgStore .savingsGoal 7 1 "multiply" "200" "2025-04-01").2
        = .serverError500 "Invalid action type" ∧
    ((update_amount_view sgStore .savingsGoal 7 1 "multiply" "200" "2025-04-01").2).isBadRequest
        = false :=
  ⟨by decide, by decide⟩

/-- C3 (amended): for every actionType other than "add" and "remove", with a
parseable amount and date and an existing goal, the mutation endpoint fails
with the distinct message "Invalid action type" from the service layer's
`ValueError` — but it is surfaced through the catch-all as a 500 Unexpected
response, not as a 400 InvalidInput; only the amount/date parse failures are
surfaced as 400s, so callers can tell "bad action" apart from "bad
amount/date" by message and not by status class.  The store is unchanged. -/
theorem C3_amended_invalid_action_surfaces_as_500
    (st : Store) (kind : GoalKind) (u pk : Nat) (act amt_s date_s : String)
    (v q : Rat) (d : Date)
    (hfind : findUserGoalAmount st kind u pk = some v)
    (hq : parseDecimal amt_s = some q)
    (hd : parse_date (normalize_date_str date_s) = .parsed d)
    (hadd : act ≠ "add") (hremove : act ≠ "remove") :
    update_amount_view st kind u pk act amt_s date_s
      = (st, .serverError500 "Invalid action type") := by
  simp only [update_amount_view, hfind, hq, hd, update_goal_with_history,
    if_neg hadd, if_neg hremove]

/-- Witness for the amended C3 at a concrete store and request. -/
theorem C3_amended_invalid_action_surfaces_as_500_witness :
    update_amount_view sgStore .savingsGoal 7 1 "multiply" "250" "2025-04-02"
      = (sgStore, .serverError500 "Invalid action type") :=
  C3_amended_invalid_action_surfaces_as_500 sgStore .savingsGoal 7 1 "multiply" "250"
    "2025-04-02" 800 250 ⟨2025, 4, 2⟩ rfl rfl rfl (by decide) (by decide)

/-! Claim C4. -/

/-- C4 counterexample: a non-mutation code path creates History records.
Stepping the store by the guest-seeding operation
(`create_dummy_history_entry`, reached from `populate_dummy_data` on guest
login) changes the History table while no goal balance mutation happened —
the `General_Saving` rows are untouched — refuting "the mutation operation
is the only code path that creates History records". -/
theorem C4_counterexample_seeder_creates_history_without_mutation :
    (stepStore gsStore (StoreOp.seedDummyHistory 7)).histories ≠ gsStore.histories ∧
    (stepStore gsStore (StoreOp.seedDummyHistory 7)).general_savings = gsStore.general_savings :=
  ⟨by decide, by decide⟩

/-- C4 (amended): History records are created by exactly two code paths.
A successful mutation appends exactly the one record describing it, while
`create_dummy_history_entry` (guest demo seeding, services.py lines 33-76)
appends its fixed demo rows directly, leaving every goal balance unchanged —
so those seeded rows correspond to no prior mutation. -/
theorem C4_amended_mutation_and_seeder_are_the_creation_paths
    (st : Store) (u : Nat) :
    ((create_dummy_history_entry st u).general_savings = st.general_savings ∧
     (create_dummy_history_entry st u).savings_goals = st.savings_goals ∧
     (create_dummy_history_entry st u).repayment_goals = st.repayment_goals ∧
     (create_dummy_history_entry st u).histories = st.histories ++ dummyHistoryRecords st u) ∧
    (∀ (kind : GoalKind) (goalId : Nat) (v : Rat) (act : String) (amt : Rat)
        (d : Date) (st1 : Store),
      update_goal_with_history st kind goalId v act amt d = .ok st1 →
      st1.histories = st.histories ++ [mutationHistoryRecord kind goalId act amt d]) := by
  refine ⟨⟨rfl, rfl, rfl, rfl⟩, ?_⟩
  intro kind goalId v act amt d st1 h
  unfold update_goal_with_history at h
  by_cases ha : act = "add"
  · rw [if_pos ha] at h
    cases h
    show (setGoalAmount st kind goalId (v + amt)).histories ++ _ = _
    rw [histories_setGoalAmount]
  · rw [if_neg ha] at h
    by_cases hr : act = "remove"
    · rw [if_pos hr] at h
      cases h
      show (setGoalAmount st kind goalId (v - amt)).histories ++ _ = _
      rw [histories_setGoalAmount]
    · rw [if_neg hr] at h
      exact absurd h (by simp)

/-- Witness for the amended C4: the seeder leaves the balance table alone
while appending its rows, and a concrete "add" mutation appends exactly its
one record. -/
theorem C4_amended_mutation_and_seeder_are_the_creation_paths_witness :
    ((create_dummy_history_entry gsStore 7).general_savings = gsStore.general_savings ∧
     (create_dummy_history_entry gsStore 7).savings_goals = gsStore.savings_goals ∧
     (create_dummy_history_entry gsStore 7).repayment_goals = gsStore.repayment_goals ∧
     (create_dummy_history_entry gsStore 7).histories
        = gsStore.histories ++ dummyHistoryRecords gsStore 7) ∧
    (setGoalAmount gsStore .generalSaving 1 (100 + 40)).histories
        ++ [mutationHistoryRecord .generalSaving 1 "add" 40 ⟨2025, 4, 1⟩]
      = gsStore.histories ++ [mutationHistoryRecord .generalSaving 1 "add" 40 ⟨2025, 4, 1⟩] :=
  ⟨(C4_amended_mutation_and_seeder_are_the_creation_paths gsStore 7).1,
   (C4_amended_mutation_and_seeder_are_the_creation_paths gsStore 7).2
     .generalSaving 1 100 "add" 40 ⟨2025, 4, 1⟩ _ rfl⟩

/-! Date-ordering helper lemmas. -/

/-- `dateLe` is total. -/
theorem dateLe_total (a b : Date) : dateLe a b = true ∨ dateLe b a = true := by
  simp only [dateLe, decide_eq_true_eq]
  omega

/-- `dateLe` is transitive. -/
theorem dateLe_trans {a b c : Date} (h1 : dateLe a b = true) (h2 : dateLe b c = true) :
    dateLe a c = true := by
  simp only [dateLe, decide_eq_true_eq] at h1 h2 ⊢
  omega

/-! Claim C5. -/

/-- C5: for every (entityKind, entityId), the history listing returns
exactly the History rows whose (content_type, object_id) reference matches
that pair, ordered most-recent effective date first; on the concrete store
with rows dated 01-10, 03-05, 02-20 for one entity it returns
[03-05, 02-20, 01-10]; and for an entity with no history (or one that no
longer exists) it returns the empty sequence rather than an error. -/
theorem C5_listHistory_exactly_matching_rows_date_descending :
    (∀ (st : Store) (kind : GoalKind) (objectId : Nat) (h : History),
        h ∈ history_list_queryset st kind objectId ↔
          (h ∈ st.histories ∧ h.content_type = kind ∧ h.object_id = objectId)) ∧
    (∀ (st : Store) (kind : GoalKind) (objectId : Nat),
        List.Sorted (fun a b : History => dateLe b.date a.date = true)
          (history_list_queryset st kind objectId)) ∧
    history_list_queryset histStore .generalSaving 1 = [histMar, histFeb, histJan] ∧
    history_list_queryset histStore .savingsGoal 99 = [] := by
  refine ⟨?_, ?_, by decide, by decide⟩
  · intro st kind objectId h
    unfold history_list_queryset orderByDateDesc
    rw [List.mem_insertionSort, List.mem_filter]
    simp [and_assoc]
  · intro st kind objectId
    unfold history_list_queryset orderByDateDesc
    exact @List.sorted_insertionSort History (fun a b => dateLe b.date a.date = true) _
      ⟨fun a b => dateLe_total b.date a.date⟩
      ⟨fun _ _ _ hab hbc => dateLe_trans hbc hab⟩ _

/-! Claim C7. -/

/-- C7 counterexample: creating a Savings_Goal (resp. Repayment_Goal) whose
deadline mode denotes "fixed" (`deadline_ongoing = 'no'`) with the deadline
date absent passes write-time validation — neither model defines a `clean()`
override and the plain ModelSerializers add no rule — instead of failing
with ValidationError as the claim states. -/
theorem C7_counterexample_missing_deadline_is_accepted :
    savingsGoalValidate { category := "travel / holiday", goal_name := "Italy Trip",
                          goal_amount := 2500, current_amount := some 800,
                          deadline_ongoing := "no", deadline := none } = .ok () ∧
    repaymentGoalValidate { category := "credit card", goal_name := "Barclays Credit Card",
                            goal_amount := 2500, current_amount := some 2100,
                            deadline_ongoing := "no", deadline := none } = .ok () :=
  ⟨rfl, rfl⟩

/-- C7 (amended): Savings_Goal and Repayment_Goal carry no deadline-mode
rule at all: any create or update whose category, goal_name and
deadline_ongoing fields are individually valid succeeds even with
`deadline_ongoing = 'no'` and the deadline date absent.  Only the `Budget`
model enforces the analogous rule, in `Budget.clean`: `recurring_monthly =
'no'` with no date raises ValidationError (when the custom-category check
does not fire first). -/
theorem C7_amended_goal_models_lack_deadline_validation :
    (∀ inp : GoalInput, savingsGoalCategories.contains inp.category = true →
        inp.goal_name ≠ "" → inp.deadline_ongoing = "no" → inp.deadline = none →
        savingsGoalValidate inp = .ok ()) ∧
    (∀ inp : GoalInput, repaymentGoalCategories.contains inp.category = true →
        inp.goal_name ≠ "" → inp.deadline_ongoing = "no" → inp.deadline = none →
        repaymentGoalValidate inp = .ok ()) ∧
    (∀ b : Budget, b.recurring_monthly = "no" → b.date = none →
        ¬(b.category = "custom" ∧ b.custom_category = "") →
        budgetClean b
          = .error ⟨"date", "Date is required if the budget is not recurring monthly."⟩) := by
  refine ⟨?_, ?_, ?_⟩
  · intro inp h1 h2 h3 _
    have h1m : inp.category ∈ savingsGoalCategories := by simpa using h1
    simp [savingsGoalValidate, h1m, h2, h3]
  · intro inp h1 h2 h3 _
    have h1m : inp.category ∈ repaymentGoalCategories := by simpa using h1
    simp [repaymentGoalValidate, h1m, h2, h3]
  · intro b h1 h2 h3
    have hfalse : (b.category == "custom" && b.custom_category == "") = false := by
      rcases Bool.eq_false_or_eq_true (b.category == "custom") with hc | hc
      · have hcat : b.category = "custom" := by simpa using hc
        have hcc : b.custom_category ≠ "" := fun he => h3 ⟨hcat, he⟩
        simp [hc, hcc]
      · simp [hc]
    simp [budgetClean, hfalse, h1, h2]

/-- Witness for the amended C7 at concrete inputs. -/
theorem C7_amended_goal_models_lack_deadline_validation_witness :
    savingsGoalValidate { category := "new home", goal_name := "First Home",
                          goal_amount := 50000, current_amount := none,
                          deadline_ongoing := "no", deadline := none } = .ok () ∧
    repaymentGoalValidate { category := "loan", goal_name := "Car Loan",
                            goal_amount := 700, current_amount := none,
                            deadline_ongoing := "no", deadline := none } = .ok () ∧
    budgetClean { userId := 7, category := "food", custom_category := "",
                  amount := 300, recurring_monthly := "no", date := none }
      = .error ⟨"date", "Date is required if the budget is not recurring monthly."⟩ :=
  ⟨C7_amended_goal_models_lack_deadline_validation.1 _ (by decide) (by decide) rfl rfl,
   C7_amended_goal_models_lack_deadline_validation.2.1 _ (by decide) (by decide) rfl rfl,
   C7_amended_goal_models_lack_deadline_validation.2.2 _ rfl rfl (by decide)⟩

/-! Claim C8. -/

/-- C8 counterexample: the date string "2025-02-30" — unparseable as a real
calendar date after normalization — does not fail with InvalidInput (400):
Django's `parse_date` raises `ValueError` on it, which the handler's
catch-all surfaces as a 500 Unexpected response. -/
theorem C8_counterexample_invalid_calendar_date_returns_500 :
    (update_amount_view sgStore .savingsGoal 7 1 "add" "200" "2025-02-30").2
        = .serverError500 "day is out of range for month" ∧
    ((update_amount_view sgStore .savingsGoal 7 1 "add" "200" "2025-02-30").2).isBadRequest
        = false :=
  ⟨by decide, by decide⟩

/-- C8 (amended): invoking the mutation endpoint with the 7-character
year-month shorthand "2025-06" behaves exactly like invoking it with
"2025-06-15" (day 15 is assumed), for every store, goal, action and amount;
a date string that does not match the date format after normalization fails
with InvalidInput (400); but a string matching the format whose components
denote no real calendar date makes `parse_date` raise `ValueError`, which is
surfaced as a 500 Unexpected response rather than InvalidInput. -/
theorem C8_amended_month_shorthand_equivalence_and_date_errors :
    (∀ (st : Store) (kind : GoalKind) (u pk : Nat) (act amt : String),
        update_amount_view st kind u pk act amt "2025-06"
          = update_amount_view st kind u pk act amt "2025-06-15") ∧
    (∀ (st : Store) (kind : GoalKind) (u pk : Nat) (act amt ds : String) (v q : Rat),
        findUserGoalAmount st kind u pk = some v → parseDecimal amt = some q →
        parse_date (normalize_date_str ds) = .noMatch →
        update_amount_view st kind u pk act amt ds
          = (st, .badRequest400 "Invalid date format. Use YYYY-MM-DD.")) ∧
    (∀ (st : Store) (kind : GoalKind) (u pk : Nat) (act amt ds : String) (v q : Rat)
        (msg : String),
        findUserGoalAmount st kind u pk = some v → parseDecimal amt = some q →
        parse_date (normalize_date_str ds) = .valueError msg →
        update_amount_view st kind u pk act amt ds = (st, .serverError500 msg)) := by
  refine ⟨?_, ?_, ?_⟩
  · intro st kind u pk act amt
    have hnorm : normalize_date_str "2025-06" = normalize_date_str "2025-06-15" := rfl
    simp only [update_amount_view, hnorm]
  · intro st kind u pk act amt ds v q hfind hq hd
    simp only [update_amount_view, hfind, hq, hd]
  · intro st kind u pk act amt ds v q msg hfind hq hd
    simp only [update_amount_view, hfind, hq, hd]

/-- Witness for the amended C8: the shorthand call equals the day-15 call on
a concrete store, a malformed date string gets a 400, and a formatted but
impossible date gets a 500. -/
theorem C8_amended_month_shorthand_equivalence_and_date_errors_witness :
    update_amount_view sgStore .savingsGoal 7 1 "add" "200" "2025-06"
        = update_amount_view sgStore .savingsGoal 7 1 "add" "200" "2025-06-15" ∧
    update_amount_view sgStore .savingsGoal 7 1 "add" "200" "banana"
        = (sgStore, .badRequest400 "Invalid date format. Use YYYY-MM-DD.") ∧
    update_amount_view sgStore .savingsGoal 7 1 "add" "200" "2025-13-01"
        = (sgStore, .serverError500 "month must be in 1..12") :=
  ⟨C8_amended_month_shorthand_equivalence_and_date_errors.1 sgStore .savingsGoal 7 1
      "add" "200",
   C8_amended_month_shorthand_equivalence_and_date_errors.2.1 sgStore .savingsGoal 7 1
      "add" "200" "banana" 800 200 rfl rfl rfl,
   C8_amended_month_shorthand_equivalence_and_date_errors.2.2 sgStore .savingsGoal 7 1
      "add" "200" "2025-13-01" 800 200 "month must be in 1..12" rfl rfl rfl⟩

/-! Claim C9. -/

/-- C9: for a listing filtered by the calendar month (y, m) — the parsed
"YYYY-MM" query parameter — the result contains exactly the user's entries
dated in the half-open range from the first of that month (inclusive) to the
first of the following month (exclusive), together with every entry of that
user flagged recurring-monthly whose own date is on or before that end
boundary; so a recurring entry dated earlier in the year appears in every
later month's view. -/
theorem C9_month_filter_range_plus_recurring
    (entries : List LedgerEntry) (userId y m : Nat)
    (hm1 : 1 ≤ m) (hm2 : m ≤ 12) :
    ∀ e : LedgerEntry, e ∈ ledger_month_queryset entries userId y m ↔
      (e ∈ entries ∧ e.userId = userId ∧
        ((dateLe (monthStartDate y m) e.date = true ∧ dateLt e.date (monthEndDate y m) = true)
          ∨ (e.recurring_monthly = "yes" ∧ dateLe e.date (monthEndDate y m) = true))) := by
  intro e
  unfold ledger_month_queryset
  rw [List.mem_insertionSort, List.mem_filter, List.mem_filter]
  simp [and_assoc, Bool.and_eq_true, Bool.or_eq_true]

/-- Witness for C9: in the March 2025 view of the concrete income table, the
recurring entry dated 2025-01-15 satisfies the characterization. -/
theorem C9_month_filter_range_plus_recurring_witness :
    ((1 ≤ 3 ∧ 3 ≤ 12) ∧
      (incomeRecurring ∈ ledger_month_queryset incomeEntries 7 2025 3 ↔
        (incomeRecurring ∈ incomeEntries ∧ incomeRecurring.userId = 7 ∧
          ((dateLe (monthStartDate 2025 3) incomeRecurring.date = true
              ∧ dateLt incomeRecurring.date (monthEndDate 2025 3) = true)
            ∨ (incomeRecurring.recurring_monthly = "yes"
              ∧ dateLe incomeRecurring.date (monthEndDate 2025 3) = true))))) :=
  ⟨⟨by decide, by decide⟩,
   C9_month_filter_range_plus_recurring incomeEntries 7 2025 3 (by decide) (by decide)
     incomeRecurring⟩

/-! Claim C10. -/

/-- C10: for every (entityKind, entityId) and fixed store, the three history
list endpoints return the same output for any two authenticated requesting
users — the queryset never restricts to records or entities owned by the
requester — and concretely user 99 can list the history of the
General_Saving owned by user 7. -/
theorem C10_history_listing_is_requester_independent :
    (∀ (st : Store) (u1 u2 pk : Nat),
        general_saving_history_view st u1 pk = general_saving_history_view st u2 pk) ∧
    (∀ (st : Store) (u1 u2 pk : Nat),
        savings_goal_history_view st u1 pk = savings_goal_history_view st u2 pk) ∧
    (∀ (st : Store) (u1 u2 pk : Nat),
        repayment_goal_history_view st u1 pk = repayment_goal_history_view st u2 pk) ∧
    general_saving_history_view histStore 99 1 = [histMar, histFeb, histJan] :=
  ⟨fun _ _ _ _ => rfl, fun _ _ _ _ => rfl, fun _ _ _ _ => rfl, by decide⟩
